import Mathlib

/-!
Verification of the MIME-driven document extraction dispatcher
(api/core/workflow/nodes/document_extractor/document_extractor_node.py).

The Python module is embedded shallowly:
  * bytes are lists of naturals (each byte a value below 256),
  * the external collaborators (SSRF-guarded HTTP fetch, storage read, and
    the binary decoder libraries pypdfium2 / python-docx / csv / pandas /
    unstructured) are fields of a `Collabs` record, so every theorem is
    quantified over their behaviour,
  * Python exceptions of the module's own taxonomy become an explicit
    error inductive carried in `Except`,
  * the two acquisition side effects (network fetch, storage read) are made
    observable by returning call counters next to the result.
-/

namespace DocumentExtractor

/-! ## Error taxonomy

Modelled from the spec: the module's exception classes live in a sibling
file (exc.py) that only declares them; the spec's §7 taxonomy says the
three specific kinds (unsupported file type, file download, text
extraction) all extend a common `DocumentExtractorError` base, which is
what the outer boundary of `_run` catches.  `str` is Python's `str(e)`,
the message the exception was constructed with. -/

inductive DocErr where
  | base (msg : String)
  | unsupportedFileType (msg : String)
  | fileDownload (msg : String)
  | textExtraction (msg : String)
deriving DecidableEq, Repr

def DocErr.str : DocErr → String
  | .base m => m
  | .unsupportedFileType m => m
  | .fileDownload m => m
  | .textExtraction m => m

/-! ## File references

Modelled from the spec: the `File` model and `FileTransferMethod` enum are
declared outside this module (core/file); spec §3 gives their fields:
`transferMethod`, `remoteUrl` (present iff REMOTE_URL), `relatedId` and
`tenantId` (present iff LOCAL_FILE), and an optional `mimeType`.  The enum
has the two documented values plus at least one further value reachable
through the dispatcher's defensive else-branch ("any other transfer
method value"), modelled here as `tool_file`. -/

inductive FileTransferMethod where
  | remote_url
  | local_file
  | tool_file
deriving DecidableEq, Repr

/-- Python's rendering of the enum member inside an f-string; the exact
text is not fixed by the repository source, and no theorem depends on it. -/
def FileTransferMethod.pyStr : FileTransferMethod → String
  | .remote_url => "FileTransferMethod.REMOTE_URL"
  | .local_file => "FileTransferMethod.LOCAL_FILE"
  | .tool_file => "FileTransferMethod.TOOL_FILE"

structure File where
  transfer_method : FileTransferMethod
  remote_url : Option String
  related_id : Option String
  tenant_id : Option String
  mime_type : Option String
deriving DecidableEq, Repr

/-! ## External collaborators -/

/-- Result of the SSRF-guarded HTTP GET: `statusOk` is whether
`raise_for_status()` passes, `statusErr` the message of the status error it
would otherwise raise, `content` the response body. -/
structure HttpResponse where
  statusOk : Bool
  statusErr : String
  content : List Nat
deriving DecidableEq, Repr

/-- A pandas data frame as far as this module observes it: a header row of
column labels and data rows of cells, a missing cell (NaN) being `none`. -/
structure DataFrame where
  header : List String
  rows : List (List (Option String))
deriving DecidableEq, Repr

/-- The pandas call dropna with the how-all keyword: drop the data rows in
which every cell is missing. -/
def DataFrame.dropnaAll (df : DataFrame) : DataFrame :=
  ⟨df.header, df.rows.filter (fun r => ¬ r.all (fun cell => cell.isNone))⟩

/-- The external collaborators consumed by the module, each returning
either a value or the message of the exception it raised. -/
structure Collabs where
  ssrfGet : String → Except String HttpResponse
  fileManagerDownload : String → Option String → Except String (List Nat)
  pdfPageTexts : List Nat → Except String (List String)
  docParagraphTexts : List Nat → Except String (List String)
  csvReaderRows : String → Except String (List (List String))
  unicodeErrStr : List Nat → String
  readExcel : List Nat → Except String DataFrame
  toMarkdown : DataFrame → Except String String
  pptElementTexts : List Nat → Except String (List (Option String))
  pptxElementTexts : List Nat → Except String (List (Option String))
  epubElementStrs : List Nat → Except String (List String)
  emlElementStrs : List Nat → Except String (List String)
  msgElementStrs : List Nat → Except String (List String)

/-! ## UTF-8 decoding

Python's strict utf-8 codec, used by `bytes.decode("utf-8")` at lines
112-116 and 172 of the source, accepts exactly the byte sequences of
RFC 3629: no overlong forms, no surrogate code points, nothing above
U+10FFFF. -/

/-- A UTF-8 continuation byte. -/
def utf8Tail (b : Nat) : Prop := 0x80 ≤ b ∧ b ≤ 0xBF

instance (b : Nat) : Decidable (utf8Tail b) := by unfold utf8Tail; infer_instance

/-- Admissible second byte of a three-byte sequence headed by `b`
(RFC 3629 rules, surrogates excluded via the 0xED row). -/
def utf8Second3 (b c1 : Nat) : Prop :=
  (b = 0xE0 ∧ 0xA0 ≤ c1 ∧ c1 ≤ 0xBF) ∨
  (0xE1 ≤ b ∧ b ≤ 0xEC ∧ utf8Tail c1) ∨
  (b = 0xED ∧ 0x80 ≤ c1 ∧ c1 ≤ 0x9F) ∨
  (0xEE ≤ b ∧ b ≤ 0xEF ∧ utf8Tail c1)

instance (b c1 : Nat) : Decidable (utf8Second3 b c1) := by
  unfold utf8Second3; infer_instance

/-- Admissible second byte of a four-byte sequence headed by `b`
(values above U+10FFFF excluded via the 0xF4 row). -/
def utf8Second4 (b c1 : Nat) : Prop :=
  (b = 0xF0 ∧ 0x90 ≤ c1 ∧ c1 ≤ 0xBF) ∨
  (0xF1 ≤ b ∧ b ≤ 0xF3 ∧ utf8Tail c1) ∨
  (b = 0xF4 ∧ 0x80 ≤ c1 ∧ c1 ≤ 0x8F)

instance (b c1 : Nat) : Decidable (utf8Second4 b c1) := by
  unfold utf8Second4; infer_instance

/-- One code point step of the strict utf-8 codec: read the leading byte
and its continuation bytes off the front, yielding the code point and the
remaining bytes, or fail on an ill-formed sequence. -/
def utf8Step (b : Nat) (rest : List Nat) : Option (Nat × List Nat) :=
  if b ≤ 0x7F then
    some (b, rest)
  else if 0xC2 ≤ b ∧ b ≤ 0xDF then
    match rest with
    | c1 :: rest2 =>
      if utf8Tail c1 then some ((b - 0xC0) * 0x40 + (c1 - 0x80), rest2) else none
    | [] => none
  else if 0xE0 ≤ b ∧ b ≤ 0xEF then
    match rest with
    | c1 :: c2 :: rest2 =>
      if utf8Second3 b c1 ∧ utf8Tail c2 then
        some ((b - 0xE0) * 0x1000 + (c1 - 0x80) * 0x40 + (c2 - 0x80), rest2)
      else none
    | _ => none
  else if 0xF0 ≤ b ∧ b ≤ 0xF4 then
    match rest with
    | c1 :: c2 :: c3 :: rest2 =>
      if utf8Second4 b c1 ∧ utf8Tail c2 ∧ utf8Tail c3 then
        some ((b - 0xF0) * 0x40000 + (c1 - 0x80) * 0x1000 +
          (c2 - 0x80) * 0x40 + (c3 - 0x80), rest2)
      else none
    | _ => none
  else none

/-- Decode a byte sequence into its code points under a step budget (each
step consumes at least one byte, so a budget of the byte count always
suffices); fail on the first ill-formed sequence, exactly as the strict
utf-8 codec does. -/
def utf8CpF : Nat → List Nat → Option (List Nat)
  | _, [] => some []
  | 0, _ :: _ => none
  | fuel + 1, b :: rest =>
    match utf8Step b rest with
    | none => none
    | some (cp, rest2) => (utf8CpF fuel rest2).map (fun cps => cp :: cps)

/-- Decode a byte sequence into its code points, or fail on the first
ill-formed sequence, exactly as the strict utf-8 codec does. -/
def utf8Cp (bs : List Nat) : Option (List Nat) :=
  utf8CpF bs.length bs

/-- The byte sequences accepted by the strict utf-8 codec, as the RFC 3629
grammar, stated independently of the decoding function. -/
inductive Utf8Chunks : List Nat → Prop where
  | nil : Utf8Chunks []
  | one : ∀ b rest, b ≤ 0x7F → Utf8Chunks rest → Utf8Chunks (b :: rest)
  | two : ∀ b c1 rest, 0xC2 ≤ b → b ≤ 0xDF → utf8Tail c1 → Utf8Chunks rest →
      Utf8Chunks (b :: c1 :: rest)
  | three : ∀ b c1 c2 rest, 0xE0 ≤ b → b ≤ 0xEF → utf8Second3 b c1 → utf8Tail c2 →
      Utf8Chunks rest → Utf8Chunks (b :: c1 :: c2 :: rest)
  | four : ∀ b c1 c2 c3 rest, 0xF0 ≤ b → b ≤ 0xF4 → utf8Second4 b c1 → utf8Tail c2 →
      utf8Tail c3 → Utf8Chunks rest → Utf8Chunks (b :: c1 :: c2 :: c3 :: rest)

/-- The decoded Python string: the decoder's code points as characters. -/
def utf8Decode (bs : List Nat) : Option String :=
  (utf8Cp bs).map (fun cps => String.mk (cps.map Char.ofNat))

/-- Total version of the decoded string, empty on ill-formed input. -/
def utf8DecodeD (bs : List Nat) : String :=
  match utf8Decode bs with
  | some s => s
  | none => ""

/-- The UTF-8 encoding of one code point (RFC 3629 byte layout), for
pinning the decoded string independently of the decoder: decoding followed
by encoding must reproduce the input bytes. -/
def utf8EncodeChar (cp : Nat) : List Nat :=
  if cp ≤ 0x7F then
    [cp]
  else if cp ≤ 0x7FF then
    [0xC0 + cp / 0x40, 0x80 + cp % 0x40]
  else if cp ≤ 0xFFFF then
    [0xE0 + cp / 0x1000, 0x80 + (cp / 0x40) % 0x40, 0x80 + cp % 0x40]
  else
    [0xF0 + cp / 0x40000, 0x80 + (cp / 0x1000) % 0x40, 0x80 + (cp / 0x40) % 0x40,
     0x80 + cp % 0x40]

/-- The UTF-8 encoding of a code point sequence. -/
def utf8Encode : List Nat → List Nat
  | [] => []
  | cp :: cps => utf8EncodeChar cp ++ utf8Encode cps

/-! ## Tabular rendering -/

/-- Python's str.join on a separator: empty on no parts, the parts
interleaved with the separator otherwise. -/
def pyJoin (sep : String) : List String → String
  | [] => ""
  | [x] => x
  | x :: y :: xs => x ++ sep ++ pyJoin sep (y :: xs)

/-- Whitespace as stripped by Python's str.strip (restricted to the ASCII
whitespace that can occur here; every stripped string in the module starts
and ends with a pipe character, so only the trailing newline matters). -/
def pyStripL (xs : List Char) : List Char :=
  ((xs.dropWhile Char.isWhitespace).reverse.dropWhile Char.isWhitespace).reverse

/-- Python's str.strip with no arguments. -/
def pyStrip (s : String) : String :=
  String.mk (pyStripL s.data)

/-- One rendered markdown table line for one row of cells, newline
included, as built at source lines 180-183. -/
def mdLine (row : List String) : String :=
  "| " ++ pyJoin " | " row ++ " |\n"

/-- Source lines 170-187 (the rendering part of the csv strategy, the
spec's TabularRenderer): header line, separator line of one dash-triple
per header cell, one line per remaining row, accumulated by the for loop,
then str.strip. -/
def tabularRender (rows : List (List String)) : String :=
  match rows with
  | [] => ""
  | r0 :: rest =>
    let markdown_table := mdLine r0
    let markdown_table := markdown_table ++ mdLine (List.replicate r0.length "---")
    let markdown_table := rest.foldl (fun acc row => acc ++ mdLine row) markdown_table
    pyStrip markdown_table

/-- One markdown table row as the spec words it: cells joined with the
spaced pipe, wrapped in a leading and a trailing pipe, no newline. -/
def mdRowSpec (row : List String) : String :=
  "| " ++ pyJoin " | " row ++ " |"

/-- The renderer as the spec words it (for the refinement comparison with
`tabularRender`): one markdown row per input row, a separator row of
dash-triples repeated once per header column immediately after the header
row, the rows joined by newlines, the final string trimmed; the empty row
list renders to the empty string. -/
def tabularRenderSpec (rows : List (List String)) : String :=
  match rows with
  | [] => ""
  | r0 :: rest =>
    pyStrip (pyJoin "\n"
      (mdRowSpec r0 :: mdRowSpec (List.replicate r0.length "---") :: rest.map mdRowSpec))

/-! ## Extraction strategies (source lines 112-140, 170-248)

Each strategy delegates the binary decoding to its collaborator and wraps
any failure into the taxonomy's text extraction error with the message
prefix of its except clause. -/

/-- Source lines 112-116: strict utf-8 decode of the raw bytes. -/
def _extract_text_from_plain_text (file_content : List Nat) : Except DocErr String :=
  match utf8Decode file_content with
  | some s => .ok s
  | none => .error (.textExtraction "Failed to decode plain text file")

/-- Source lines 119-131: page texts in document order concatenated with
no separator. -/
def _extract_text_from_pdf (c : Collabs) (file_content : List Nat) : Except DocErr String :=
  match c.pdfPageTexts file_content with
  | .error e => .error (.textExtraction ("Failed to extract text from PDF: " ++ e))
  | .ok pages => .ok (pages.foldl (fun text t => text ++ t) "")

/-- Source lines 134-140: paragraph texts joined one per line. -/
def _extract_text_from_doc (c : Collabs) (file_content : List Nat) : Except DocErr String :=
  match c.docParagraphTexts file_content with
  | .error e => .error (.textExtraction ("Failed to extract text from DOC/DOCX: " ++ e))
  | .ok paras => .ok (pyJoin "\n" paras)

/-- Source lines 170-187: utf-8 decode, parse rows with the csv reader,
render the markdown table; any failure, the decode's included, is wrapped
with the CSV message prefix. -/
def _extract_text_from_csv (c : Collabs) (file_content : List Nat) : Except DocErr String :=
  match utf8Decode file_content with
  | none =>
    .error (.textExtraction ("Failed to extract text from CSV: " ++ c.unicodeErrStr file_content))
  | some s =>
    match c.csvReaderRows s with
    | .error e => .error (.textExtraction ("Failed to extract text from CSV: " ++ e))
    | .ok rows => .ok (tabularRender rows)

/-- Source lines 190-203: load the table with pandas, drop the data rows
whose cells are all missing, render with the pandas markdown serializer
(an external collaborator, not the csv renderer above). -/
def _extract_text_from_excel (c : Collabs) (file_content : List Nat) : Except DocErr String :=
  match c.readExcel file_content with
  | .error e => .error (.textExtraction ("Failed to extract text from Excel file: " ++ e))
  | .ok df =>
    match c.toMarkdown df.dropnaAll with
    | .error e => .error (.textExtraction ("Failed to extract text from Excel file: " ++ e))
    | .ok md => .ok md

/-- Source lines 206-212: partition elements, take each element's text
attribute defaulting to the empty string, join one per line. -/
def _extract_text_from_ppt (c : Collabs) (file_content : List Nat) : Except DocErr String :=
  match c.pptElementTexts file_content with
  | .error e => .error (.textExtraction ("Failed to extract text from PPT: " ++ e))
  | .ok elems => .ok (pyJoin "\n" (elems.map (fun t => t.getD "")))

/-- Source lines 215-221: as the ppt strategy, for the OOXML presentation
type. -/
def _extract_text_from_pptx (c : Collabs) (file_content : List Nat) : Except DocErr String :=
  match c.pptxElementTexts file_content with
  | .error e => .error (.textExtraction ("Failed to extract text from PPTX: " ++ e))
  | .ok elems => .ok (pyJoin "\n" (elems.map (fun t => t.getD "")))

/-- Source lines 224-230: partition elements, join their string forms one
per line. -/
def _extract_text_from_epub (c : Collabs) (file_content : List Nat) : Except DocErr String :=
  match c.epubElementStrs file_content with
  | .error e => .error (.textExtraction ("Failed to extract text from EPUB: " ++ e))
  | .ok elems => .ok (pyJoin "\n" elems)

/-- Source lines 233-239: as the epub strategy, for rfc822 mail. -/
def _extract_text_from_eml (c : Collabs) (file_content : List Nat) : Except DocErr String :=
  match c.emlElementStrs file_content with
  | .error e => .error (.textExtraction ("Failed to extract text from EML: " ++ e))
  | .ok elems => .ok (pyJoin "\n" elems)

/-- Source lines 242-248: as the epub strategy, for outlook messages. -/
def _extract_text_from_msg (c : Collabs) (file_content : List Nat) : Except DocErr String :=
  match c.msgElementStrs file_content with
  | .error e => .error (.textExtraction ("Failed to extract text from MSG: " ++ e))
  | .ok elems => .ok (pyJoin "\n" elems)

/-- Python's str.startswith: the argument is a character prefix of the
receiver (structural, so closed instances evaluate in the kernel). -/
def pyStartsWith (s pre : String) : Bool := pre.data.isPrefixOf s.data

/-! ## Dispatch (source lines 80-109) -/

/-- Source lines 80-109: route the declared MIME type to its strategy; the
plain-text family is matched by a startswith test on text slash plain plus
an explicit alias set, every other entry by exact string or explicit set;
anything else raises the unsupported file type error naming the MIME
type. -/
def _extract_text (c : Collabs) (file_content : List Nat) (mime_type : String) :
    Except DocErr String :=
  if pyStartsWith mime_type "text/plain" = true ∨
      mime_type ∈ ["text/html", "text/htm", "text/markdown", "text/xml"] then
    _extract_text_from_plain_text file_content
  else if mime_type = "application/pdf" then
    _extract_text_from_pdf c file_content
  else if mime_type ∈ ["application/vnd.openxmlformats-officedocument.wordprocessingml.document",
      "application/msword"] then
    _extract_text_from_doc c file_content
  else if mime_type = "text/csv" then
    _extract_text_from_csv c file_content
  else if mime_type ∈ ["application/vnd.openxmlformats-officedocument.spreadsheetml.sheet",
      "application/vnd.ms-excel"] then
    _extract_text_from_excel c file_content
  else if mime_type = "application/vnd.ms-powerpoint" then
    _extract_text_from_ppt c file_content
  else if mime_type = "application/vnd.openxmlformats-officedocument.presentationml.presentation" then
    _extract_text_from_pptx c file_content
  else if mime_type = "application/epub+zip" then
    _extract_text_from_epub c file_content
  else if mime_type = "message/rfc822" then
    _extract_text_from_eml c file_content
  else if mime_type = "application/vnd.ms-outlook" then
    _extract_text_from_msg c file_content
  else
    .error (.unsupportedFileType ("Unsupported MIME type: " ++ mime_type))

/-! ## Acquisition (source lines 143-159)

The returned pair of counters records how often the network fetch
collaborator and the storage read collaborator were invoked, making the
spec's no-acquisition guarantees statable. -/

/-- Source lines 143-159: resolve the file reference to bytes through the
transfer method's collaborator; a missing required field, a collaborator
exception, a non-success status or an unknown transfer method are all
re-raised as the file download error wrapping the inner message, by the
except clause around the whole body. -/
def _download_file_content (c : Collabs) (file : File) :
    Except DocErr (List Nat) × Nat × Nat :=
  match file.transfer_method with
  | .remote_url =>
    match file.remote_url with
    | none =>
      (.error (.fileDownload ("Error downloading file: " ++ "Missing URL for remote file")), 0, 0)
    | some url =>
      match c.ssrfGet url with
      | .error e => (.error (.fileDownload ("Error downloading file: " ++ e)), 1, 0)
      | .ok resp =>
        if resp.statusOk then (.ok resp.content, 1, 0)
        else (.error (.fileDownload ("Error downloading file: " ++ resp.statusErr)), 1, 0)
  | .local_file =>
    match file.related_id with
    | none =>
      (.error (.fileDownload ("Error downloading file: " ++ "Missing file ID for local file")), 0, 0)
    | some rid =>
      match c.fileManagerDownload rid file.tenant_id with
      | .error e => (.error (.fileDownload ("Error downloading file: " ++ e)), 0, 1)
      | .ok content => (.ok content, 0, 1)
  | .tool_file =>
    (.error (.fileDownload ("Error downloading file: " ++
      ("Unsupported transfer method: " ++ FileTransferMethod.pyStr .tool_file))), 0, 0)

/-- Source lines 162-167: fail before any acquisition when the MIME type
is missing, otherwise download and dispatch. -/
def _extract_text_from_file (c : Collabs) (file : File) :
    Except DocErr String × Nat × Nat :=
  match file.mime_type with
  | none =>
    (.error (.unsupportedFileType "Unable to determine file type: MIME type is missing"), 0, 0)
  | some mt =>
    match _download_file_content c file with
    | (.error e, n, s) => (.error e, n, s)
    | (.ok content, n, s) => (_extract_text c content mt, n, s)

/-! ## The node boundary (source lines 36-77)

Modelled from the spec where the surrounding declarations are outside this
module: variable segments (FileSegment holds one file, ArrayFileSegment a
list of files, every other segment kind carries some other Python value),
NodeRunResult with its status, error, echoed inputs, process data and
outputs fields, and the execution status enum. -/

/-- A Python value as observed by the node: a file object, a list, a
string, the None object, or an integer (a representative of the remaining
segment value types). -/
inductive PyValue where
  | file (f : File)
  | list (elems : List PyValue)
  | str (s : String)
  | none
  | int (n : Int)

/-- Python truthiness of the modelled values: objects are truthy,
containers and strings iff non-empty, None never, integers iff non-zero. -/
def PyValue.truthy : PyValue → Bool
  | .file _ => true
  | .list l => !l.isEmpty
  | .str s => !s.isEmpty
  | .none => false
  | .int n => n ≠ 0

/-- Python's rendering of type of the value inside the unsupported
variable type message; the exact module path of the file class is not
fixed by the repository source, and no theorem depends on it. -/
def PyValue.pyTypeStr : PyValue → String
  | .file _ => "<class 'core.file.models.File'>"
  | .list _ => "<class 'list'>"
  | .str _ => "<class 'str'>"
  | .none => "<class 'NoneType'>"
  | .int _ => "<class 'int'>"

/-- A variable pool segment as the node observes it: a file segment, an
array file segment, or any other segment kind with its value. -/
inductive Variable where
  | fileSegment (f : File)
  | arrayFileSegment (fs : List File)
  | other (v : PyValue)

/-- The segment's Python value. -/
def Variable.value : Variable → PyValue
  | .fileSegment f => .file f
  | .arrayFileSegment fs => .list (fs.map PyValue.file)
  | .other v => v

/-- The isinstance test against ArrayFileSegment or FileSegment at source
line 44. -/
def Variable.isFileLikeSegment : Variable → Bool
  | .fileSegment _ => true
  | .arrayFileSegment _ => true
  | .other _ => false

/-- Execution status of a node run. -/
inductive Status where
  | succeeded
  | failed
deriving DecidableEq, Repr

/-- The value under the text key of the outputs mapping: one string for a
single file input, a list of strings for a list input. -/
inductive OutputVal where
  | str (s : String)
  | strList (l : List String)
deriving DecidableEq, Repr

/-- The run result record, restricted to the fields the node populates:
status, error message, the echoed variable selector, the echoed documents
and the outputs. -/
structure NodeRunResult where
  status : Status
  error : Option String := Option.none
  inputs : Option String := Option.none
  process_data : Option (List PyValue) := Option.none
  outputs : Option OutputVal := Option.none

/-- Outcome of the node boundary: a returned run result, or a Python
exception outside the module's taxonomy escaping uncaught (reachable in
the model only by extracting from a non-file list element, where Python
would raise an attribute error). -/
inductive RunOutcome where
  | result (r : NodeRunResult)
  | pythonError (msg : String)

/-- Extraction error of one list element: a taxonomy error, or the
attribute error a non-file element would raise. -/
inductive ItemErr where
  | doc (e : DocErr)
  | attr
deriving DecidableEq, Repr

/-- Extraction applied to one element of a list value. -/
def _extract_item (c : Collabs) : PyValue → Except ItemErr String
  | .file f =>
    match (_extract_text_from_file c f).1 with
    | .error e => .error (.doc e)
    | .ok t => .ok t
  | _ => .error .attr

/-- The eager left to right list of map at source line 54: results are
collected in order and the first exception aborts the traversal. -/
def _extract_list (c : Collabs) : List PyValue → Except ItemErr (List String)
  | [] => .ok []
  | v :: vs =>
    match _extract_item c v with
    | .error e => .error e
    | .ok t =>
      match _extract_list c vs with
      | .error e => .error e
      | .ok ts => .ok (t :: ts)

/-- Source lines 36-77: the node run. A missing variable and a truthy
non-file segment return early, before the echo fields are assembled; the
try block dispatches on the value's shape, the except clause converts any
taxonomy error into a failed result carrying its message. -/
def _run (c : Collabs) (variable_selector : String) (varOpt : Option Variable) :
    RunOutcome :=
  match varOpt with
  | Option.none =>
    .result { status := .failed,
              error := some ("File variable not found for selector: " ++ variable_selector) }
  | some var =>
    if var.value.truthy = true ∧ ¬ var.isFileLikeSegment = true then
      .result { status := .failed,
                error := some ("Variable " ++ variable_selector ++ " is not an ArrayFileSegment") }
    else
      let value := var.value
      let inputs := some variable_selector
      let process_data := some (match value with
        | .list l => l
        | v => [v])
      match value with
      | .list elems =>
        match _extract_list c elems with
        | .ok ts =>
          .result { status := .succeeded, inputs := inputs, process_data := process_data,
                    outputs := some (.strList ts) }
        | .error (.doc e) =>
          .result { status := .failed, error := some e.str, inputs := inputs,
                    process_data := process_data }
        | .error .attr => .pythonError "AttributeError"
      | .file f =>
        match (_extract_text_from_file c f).1 with
        | .ok t =>
          .result { status := .succeeded, inputs := inputs, process_data := process_data,
                    outputs := some (.str t) }
        | .error e =>
          .result { status := .failed, error := some e.str, inputs := inputs,
                    process_data := process_data }
      | v =>
        .result { status := .failed,
                  error := some ("Unsupported variable type: " ++ v.pyTypeStr),
                  inputs := inputs, process_data := process_data }

/-- The taxonomy error of the first list element whose extraction fails,
if any: the error whose message the spec says a failed batch reports. -/
def firstExtractionError (c : Collabs) : List File → Option DocErr
  | [] => Option.none
  | f :: fs =>
    match (_extract_text_from_file c f).1 with
    | .error e => some e
    | .ok _ => firstExtractionError c fs

/-- A concrete collaborator record for closed evaluations: every
collaborator raises. -/
def defaultCollabs : Collabs where
  ssrfGet := fun _ => .error "no network"
  fileManagerDownload := fun _ _ => .error "no storage"
  pdfPageTexts := fun _ => .error "no decoder"
  docParagraphTexts := fun _ => .error "no decoder"
  csvReaderRows := fun _ => .error "no decoder"
  unicodeErrStr := fun _ => "decode error"
  readExcel := fun _ => .error "no decoder"
  toMarkdown := fun _ => .error "no decoder"
  pptElementTexts := fun _ => .error "no decoder"
  pptxElementTexts := fun _ => .error "no decoder"
  epubElementStrs := fun _ => .error "no decoder"
  emlElementStrs := fun _ => .error "no decoder"
  msgElementStrs := fun _ => .error "no decoder"

/-! ## Auxiliary definitions for the statements -/

/-- Concatenation of a list of strings, for relating the accumulating for
loop of the renderer to the joined form of the spec. -/
def catAll : List String → String
  | [] => ""
  | x :: xs => x ++ catAll xs

/-- The MIME types listed in the spec's registry table (§4.3): the five
plain-text aliases, PDF, the two word-processing types, csv, the two
spreadsheet types, the two presentation types, epub, rfc822 mail and
outlook messages. -/
def registryMimeTypes : List String :=
  ["text/plain", "text/html", "text/htm", "text/markdown", "text/xml",
   "application/pdf",
   "application/msword", "application/vnd.openxmlformats-officedocument.wordprocessingml.document",
   "text/csv",
   "application/vnd.ms-excel", "application/vnd.openxmlformats-officedocument.spreadsheetml.sheet",
   "application/vnd.ms-powerpoint",
   "application/vnd.openxmlformats-officedocument.presentationml.presentation",
   "application/epub+zip", "message/rfc822", "application/vnd.ms-outlook"]

/-- A file value, as opposed to any other Python value. -/
def PyValue.isFileValue : PyValue → Bool
  | .file _ => true
  | _ => false

/-- A list value whose elements are all file values; the empty list is one
vacuously. -/
def PyValue.isFileListValue : PyValue → Bool
  | .list l => l.all PyValue.isFileValue
  | _ => false

/-- Collaborators whose network fetch succeeds with the single byte 0x68
(the letter h) and whose storage read succeeds with the byte 0x69 (the
letter i), for closed witnesses of successful runs. -/
def okCollabs : Collabs :=
  { defaultCollabs with
    ssrfGet := fun _ => .ok ⟨true, "", [0x68]⟩,
    fileManagerDownload := fun _ _ => .ok [0x69] }

/-- A remote plain-text file reference whose bytes decode to the letter h
under `okCollabs`. -/
def remoteTxtFile : File :=
  ⟨.remote_url, some "https://example.test/a.txt", Option.none, Option.none, some "text/plain"⟩

/-- A local plain-text file reference whose bytes decode to the letter i
under `okCollabs`. -/
def localTxtFile : File :=
  ⟨.local_file, Option.none, some "upload-1", some "tenant-1", some "text/plain"⟩

/-- A remote file reference with an unsupported declared MIME type. -/
def remoteZipFile : File :=
  ⟨.remote_url, some "https://example.test/a.zip", Option.none, Option.none,
   some "application/zip"⟩

/-- A file reference with no declared MIME type. -/
def noMimeFile : File :=
  ⟨.remote_url, some "https://example.test/b", Option.none, Option.none, Option.none⟩

/-- A remote reference missing its URL. -/
def noUrlFile : File :=
  ⟨.remote_url, Option.none, Option.none, Option.none, some "text/plain"⟩

/-- A local reference missing its related upload id. -/
def noIdFile : File :=
  ⟨.local_file, Option.none, Option.none, some "tenant-1", some "text/plain"⟩

/-- A reference carrying the transfer method outside the two acquisition
paths. -/
def toolFile : File :=
  ⟨.tool_file, Option.none, Option.none, Option.none, some "text/plain"⟩

/-! ## Lemmas about stripping and joining -/

theorem stripL_append_ws (xs : List Char) (c : Char) (hc : c.isWhitespace = true)
    (hx : xs.dropWhile Char.isWhitespace = xs) :
    pyStripL (xs ++ [c]) = pyStripL xs := by
  cases xs with
  | nil => simp [pyStripL, List.dropWhile, hc]
  | cons x rest =>
    have hxws : ¬ x.isWhitespace = true := by
      have := List.dropWhile_eq_self_iff.mp hx
      simpa using this (by simp)
    unfold pyStripL
    rw [hx]
    congr 1
    have h1 : List.dropWhile Char.isWhitespace ((x :: rest) ++ [c]) = (x :: rest) ++ [c] := by
      rw [List.cons_append, List.dropWhile_cons, if_neg hxws]
    rw [h1]
    have h2 : ((x :: rest) ++ [c]).reverse = c :: (x :: rest).reverse := by
      simp
    rw [h2, List.dropWhile_cons, if_pos hc]

theorem strip_append_newline (s : String)
    (h : s.data.dropWhile Char.isWhitespace = s.data) :
    pyStrip (s ++ "\n") = pyStrip s := by
  unfold pyStrip
  rw [String.data_append]
  have hn : ("\n" : String).data = ['\n'] := rfl
  rw [hn, stripL_append_ws s.data '\n' (by decide) h]

theorem foldl_mdLine (rest : List (List String)) (acc : String) :
    rest.foldl (fun a row => a ++ mdLine row) acc = acc ++ catAll (rest.map mdLine) := by
  induction rest generalizing acc with
  | nil => simp [catAll, String.append_empty]
  | cons r rs ih =>
    simp only [List.foldl_cons, List.map_cons, catAll]
    rw [ih, String.append_assoc]

theorem mdLine_eq (row : List String) : mdLine row = mdRowSpec row ++ "\n" := by
  unfold mdLine mdRowSpec
  rw [String.append_assoc, String.append_assoc, String.append_assoc]
  rfl

theorem catAll_map_newline (l : List String) (h : l ≠ []) :
    catAll (l.map (fun s => s ++ "\n")) = pyJoin "\n" l ++ "\n" := by
  induction l with
  | nil => exact absurd rfl h
  | cons x xs ih =>
    cases xs with
    | nil => simp [catAll, pyJoin, String.append_empty]
    | cons y t =>
      simp only [List.map_cons, catAll] at ih ⊢
      rw [ih (by simp), pyJoin]
      simp [String.append_assoc]

theorem front_stable_of_head_pipe (s : String) (t : List Char) (h : s.data = '|' :: t) :
    s.data.dropWhile Char.isWhitespace = s.data := by
  rw [h, List.dropWhile_cons, if_neg (by decide)]

theorem pyJoin_head (sep z : String) (zs : List String) :
    ∃ w, pyJoin sep (z :: zs) = z ++ w := by
  cases zs with
  | nil => exact ⟨"", by simp [pyJoin, String.append_empty]⟩
  | cons y t => exact ⟨sep ++ pyJoin sep (y :: t), by simp [pyJoin, String.append_assoc]⟩

/-- The accumulated, stripped table of the source renderer coincides, for
every row list, with the joined and trimmed table the spec describes. -/
theorem tabular_eq (rows : List (List String)) :
    tabularRender rows = tabularRenderSpec rows := by
  cases rows with
  | nil => rfl
  | cons r0 rest =>
    unfold tabularRender tabularRenderSpec
    simp only [foldl_mdLine]
    have hmap : rest.map mdLine = (rest.map mdRowSpec).map (fun s => s ++ "\n") := by
      rw [List.map_map]
      exact List.map_congr_left (fun r _ => mdLine_eq r)
    rw [hmap, mdLine_eq, mdLine_eq, String.append_assoc]
    have hcat : (mdRowSpec r0 ++ "\n") ++ ((mdRowSpec (List.replicate r0.length "---") ++ "\n") ++
        catAll ((rest.map mdRowSpec).map (fun s => s ++ "\n"))) =
        catAll ((mdRowSpec r0 :: mdRowSpec (List.replicate r0.length "---") ::
          rest.map mdRowSpec).map (fun s => s ++ "\n")) := by
      simp [catAll]
    rw [hcat, catAll_map_newline _ (by simp)]
    obtain ⟨w, hw⟩ := pyJoin_head "\n" (mdRowSpec r0)
      (mdRowSpec (List.replicate r0.length "---") :: rest.map mdRowSpec)
    apply strip_append_newline
    apply front_stable_of_head_pipe _ (((" " : String) ++ pyJoin " | " r0 ++ " |").data ++ w.data)
    rw [hw]
    unfold mdRowSpec
    rw [String.data_append]
    rw [show ("| " ++ pyJoin " | " r0 ++ " |").data =
      ('|' :: (" " ++ pyJoin " | " r0 ++ " |").data) from ?_]
    · rfl
    · rw [show ("| " ++ pyJoin " | " r0 ++ " |") = "|" ++ (" " ++ pyJoin " | " r0 ++ " |") from ?_]
      · rw [String.data_append]; rfl
      · rw [← String.append_assoc, ← String.append_assoc]
        rfl

/-- C4: for every row list the renderer emits one markdown row per input
row (cells joined with the spaced pipe and wrapped in a leading and a
trailing pipe), a separator row of one dash-triple per header column right
after the header row, and trims the final string, which is exactly the
spec-worded renderer; the sample table renders to the documented literal,
and the empty row list renders to the empty string. -/
theorem c4_tabular_renderer :
    (∀ rows, tabularRender rows = tabularRenderSpec rows) ∧
    tabularRender [["a", "b"], ["1", "2"]] = "| a | b |\n| --- | --- |\n| 1 | 2 |" ∧
    tabularRender [] = "" :=
  ⟨tabular_eq, by rfl, rfl⟩

/-! ## Claims about acquisition and dispatch guards -/

/-- C3: a file reference with no declared MIME type fails with the
unsupported file type error before any acquisition: neither the network
fetch collaborator nor the storage read collaborator is invoked, whatever
the collaborators are. -/
theorem c3_null_mime_no_acquisition (c : Collabs) (file : File)
    (h : file.mime_type = Option.none) :
    _extract_text_from_file c file =
      (.error (.unsupportedFileType "Unable to determine file type: MIME type is missing"), 0, 0) := by
  unfold _extract_text_from_file
  rw [h]

/-- C3 witness: the concrete reference without a MIME type. -/
theorem c3_witness :
    noMimeFile.mime_type = Option.none ∧
    _extract_text_from_file defaultCollabs noMimeFile =
      (.error (.unsupportedFileType "Unable to determine file type: MIME type is missing"), 0, 0) :=
  ⟨rfl, c3_null_mime_no_acquisition defaultCollabs noMimeFile rfl⟩

/-- C5: acquisition fails with the file download error and invokes no
collaborator whenever the required field of the chosen transfer method is
absent (a remote reference without URL, a local reference without related
id), and any other transfer method value is also surfaced as a file
download error with no collaborator call. -/
theorem c5_download_guards (c : Collabs) (file : File) :
    (file.transfer_method = .remote_url → file.remote_url = Option.none →
      _download_file_content c file =
        (.error (.fileDownload ("Error downloading file: " ++ "Missing URL for remote file")), 0, 0)) ∧
    (file.transfer_method = .local_file → file.related_id = Option.none →
      _download_file_content c file =
        (.error (.fileDownload ("Error downloading file: " ++ "Missing file ID for local file")), 0, 0)) ∧
    (file.transfer_method = .tool_file →
      ∃ msg, _download_file_content c file = (.error (.fileDownload msg), 0, 0)) := by
  refine ⟨fun h1 h2 => ?_, fun h1 h2 => ?_, fun h1 => ?_⟩
  · unfold _download_file_content
    rw [h1, h2]
  · unfold _download_file_content
    rw [h1, h2]
  · refine ⟨"Error downloading file: " ++
      ("Unsupported transfer method: " ++ FileTransferMethod.pyStr .tool_file), ?_⟩
    unfold _download_file_content
    rw [h1]

/-- C5 witness: the three concrete references, one per guard. -/
theorem c5_witness :
    _download_file_content defaultCollabs noUrlFile =
      (.error (.fileDownload ("Error downloading file: " ++ "Missing URL for remote file")), 0, 0) ∧
    _download_file_content defaultCollabs noIdFile =
      (.error (.fileDownload ("Error downloading file: " ++ "Missing file ID for local file")), 0, 0) ∧
    ∃ msg, _download_file_content defaultCollabs toolFile = (.error (.fileDownload msg), 0, 0) :=
  ⟨(c5_download_guards defaultCollabs noUrlFile).1 rfl rfl,
   (c5_download_guards defaultCollabs noIdFile).2.1 rfl rfl,
   (c5_download_guards defaultCollabs toolFile).2.2 rfl⟩

/-- C1 as amended: every MIME type that does not start with text slash
plain and is not one of the registry table's types is dispatched to the
unsupported file type error naming the type, regardless of the byte
content and of the collaborators. -/
theorem c1_unlisted_mime_unsupported (c : Collabs) (file_content : List Nat) (mime_type : String)
    (h1 : pyStartsWith mime_type "text/plain" = false)
    (h2 : mime_type ∉ registryMimeTypes) :
    _extract_text c file_content mime_type =
      .error (.unsupportedFileType ("Unsupported MIME type: " ++ mime_type)) := by
  simp only [registryMimeTypes, List.mem_cons, List.mem_singleton, not_or] at h2
  obtain ⟨e1, e2, e3, e4, e5, e6, e7, e8, e9, e10, e11, e12, e13, e14, e15, e16⟩ := h2
  simp [_extract_text, h1, e1, e2, e3, e4, e5, e6, e7, e8, e9, e10, e11, e12, e13, e14, e15, e16]

/-- C1 counterexample: the MIME string text slash plainx is not one of the
registry table's types, yet the dispatcher does not raise the unsupported
file type error on it — the plain-text family is matched by prefix, so the
empty byte content decodes to the empty string. -/
theorem c1_counterexample :
    "text/plainx" ∉ registryMimeTypes ∧
    _extract_text defaultCollabs [] "text/plainx" = .ok "" := by
  exact ⟨by decide, by rfl⟩

/-- C1 witness: the unlisted type application slash zip fails with the
unsupported file type error naming it. -/
theorem c1_witness :
    (pyStartsWith "application/zip" "text/plain" = false) ∧
    "application/zip" ∉ registryMimeTypes ∧
    _extract_text defaultCollabs [] "application/zip" =
      .error (.unsupportedFileType ("Unsupported MIME type: " ++ "application/zip")) :=
  ⟨by decide, by decide,
   c1_unlisted_mime_unsupported defaultCollabs [] "application/zip" (by decide) (by decide)⟩

/-! ## Soundness and completeness of the UTF-8 decoder against RFC 3629 -/

theorem utf8Step_le (b : Nat) (rest : List Nat) (cp : Nat) (rest2 : List Nat)
    (h : utf8Step b rest = some (cp, rest2)) : rest2.length ≤ rest.length := by
  unfold utf8Step at h
  by_cases h1 : b ≤ 0x7F
  · rw [if_pos h1] at h
    cases h
    exact le_rfl
  · rw [if_neg h1] at h
    by_cases h2 : 0xC2 ≤ b ∧ b ≤ 0xDF
    · rw [if_pos h2] at h
      match rest with
      | [] => cases h
      | c1 :: r2 =>
        by_cases h3 : utf8Tail c1
        · simp only [if_pos h3, Option.some.injEq, Prod.mk.injEq] at h
          simp [← h.2]
        · simp only [if_neg h3] at h
          cases h
    · rw [if_neg h2] at h
      by_cases h4 : 0xE0 ≤ b ∧ b ≤ 0xEF
      · rw [if_pos h4] at h
        match rest with
        | [] => cases h
        | [c1] => cases h
        | c1 :: c2 :: r2 =>
          by_cases h5 : utf8Second3 b c1 ∧ utf8Tail c2
          · simp only [if_pos h5, Option.some.injEq, Prod.mk.injEq] at h
            simp [← h.2]
            omega
          · simp only [if_neg h5] at h
            cases h
      · rw [if_neg h4] at h
        by_cases h6 : 0xF0 ≤ b ∧ b ≤ 0xF4
        · rw [if_pos h6] at h
          match rest with
          | [] => cases h
          | [c1] => cases h
          | [c1, c2] => cases h
          | c1 :: c2 :: c3 :: r2 =>
            by_cases h7 : utf8Second4 b c1 ∧ utf8Tail c2 ∧ utf8Tail c3
            · simp only [if_pos h7, Option.some.injEq, Prod.mk.injEq] at h
              simp [← h.2]
              omega
            · simp only [if_neg h7] at h
              cases h
        · rw [if_neg h6] at h
          cases h

theorem utf8_completeF (bs : List Nat) (h : Utf8Chunks bs) :
    ∀ fuel, bs.length ≤ fuel → (utf8CpF fuel bs).isSome = true := by
  induction h with
  | nil => intro fuel _; cases fuel <;> rfl
  | one b rest hb _ ih =>
    intro fuel hf
    match fuel with
    | 0 => simp at hf
    | fuel + 1 =>
      have hstep : utf8Step b rest = some (b, rest) := by
        unfold utf8Step
        rw [if_pos hb]
      simp only [utf8CpF, hstep, Option.isSome_map']
      exact ih fuel (by simp at hf; omega)
  | two b c1 rest hb1 hb2 hc1 _ ih =>
    intro fuel hf
    match fuel with
    | 0 => simp at hf
    | fuel + 1 =>
      have hstep : utf8Step b (c1 :: rest) =
          some ((b - 0xC0) * 0x40 + (c1 - 0x80), rest) := by
        unfold utf8Step
        rw [if_neg (by omega), if_pos ⟨hb1, hb2⟩]
        simp only [if_pos hc1]
      simp only [utf8CpF, hstep, Option.isSome_map']
      exact ih fuel (by simp at hf; omega)
  | three b c1 c2 rest hb1 hb2 h3 hc2 _ ih =>
    intro fuel hf
    match fuel with
    | 0 => simp at hf
    | fuel + 1 =>
      have hstep : utf8Step b (c1 :: c2 :: rest) =
          some ((b - 0xE0) * 0x1000 + (c1 - 0x80) * 0x40 + (c2 - 0x80), rest) := by
        unfold utf8Step
        rw [if_neg (by omega), if_neg (by omega), if_pos ⟨hb1, hb2⟩]
        simp only [if_pos (And.intro h3 hc2)]
      simp only [utf8CpF, hstep, Option.isSome_map']
      exact ih fuel (by simp at hf; omega)
  | four b c1 c2 c3 rest hb1 hb2 h4 hc2 hc3 _ ih =>
    intro fuel hf
    match fuel with
    | 0 => simp at hf
    | fuel + 1 =>
      have hstep : utf8Step b (c1 :: c2 :: c3 :: rest) =
          some ((b - 0xF0) * 0x40000 + (c1 - 0x80) * 0x1000 +
            (c2 - 0x80) * 0x40 + (c3 - 0x80), rest) := by
        unfold utf8Step
        rw [if_neg (by omega), if_neg (by omega), if_neg (by omega), if_pos ⟨hb1, hb2⟩]
        simp only [if_pos (And.intro h4 (And.intro hc2 hc3))]
      simp only [utf8CpF, hstep, Option.isSome_map']
      exact ih fuel (by simp at hf; omega)

theorem utf8Step_sound (b : Nat) (rest : List Nat) (cp : Nat) (rest2 : List Nat)
    (h : utf8Step b rest = some (cp, rest2)) (hrec : Utf8Chunks rest2) :
    Utf8Chunks (b :: rest) := by
  unfold utf8Step at h
  by_cases h1 : b ≤ 0x7F
  · rw [if_pos h1] at h
    cases h
    exact .one b rest h1 hrec
  · rw [if_neg h1] at h
    by_cases h2 : 0xC2 ≤ b ∧ b ≤ 0xDF
    · rw [if_pos h2] at h
      match rest with
      | [] => cases h
      | c1 :: r2 =>
        by_cases h3 : utf8Tail c1
        · simp only [if_pos h3, Option.some.injEq, Prod.mk.injEq] at h
          have hr : r2 = rest2 := h.2
          subst hr
          exact .two b c1 r2 h2.1 h2.2 h3 hrec
        · simp only [if_neg h3] at h
          cases h
    · rw [if_neg h2] at h
      by_cases h4 : 0xE0 ≤ b ∧ b ≤ 0xEF
      · rw [if_pos h4] at h
        match rest with
        | [] => cases h
        | [c1] => cases h
        | c1 :: c2 :: r2 =>
          by_cases h5 : utf8Second3 b c1 ∧ utf8Tail c2
          · simp only [if_pos h5, Option.some.injEq, Prod.mk.injEq] at h
            have hr : r2 = rest2 := h.2
            subst hr
            exact .three b c1 c2 r2 h4.1 h4.2 h5.1 h5.2 hrec
          · simp only [if_neg h5] at h
            cases h
      · rw [if_neg h4] at h
        by_cases h6 : 0xF0 ≤ b ∧ b ≤ 0xF4
        · rw [if_pos h6] at h
          match rest with
          | [] => cases h
          | [c1] => cases h
          | [c1, c2] => cases h
          | c1 :: c2 :: c3 :: r2 =>
            by_cases h7 : utf8Second4 b c1 ∧ utf8Tail c2 ∧ utf8Tail c3
            · simp only [if_pos h7, Option.some.injEq, Prod.mk.injEq] at h
              have hr : r2 = rest2 := h.2
              subst hr
              exact .four b c1 c2 c3 r2 h6.1 h6.2 h7.1 h7.2.1 h7.2.2 hrec
            · simp only [if_neg h7] at h
              cases h
        · rw [if_neg h6] at h
          cases h

theorem utf8_soundF : ∀ (fuel : Nat) (bs : List Nat),
    (utf8CpF fuel bs).isSome = true → Utf8Chunks bs := by
  intro fuel
  induction fuel with
  | zero =>
    intro bs h
    match bs with
    | [] => exact .nil
    | b :: rest => simp [utf8CpF] at h
  | succ fuel ih =>
    intro bs h
    match bs with
    | [] => exact .nil
    | b :: rest =>
      simp only [utf8CpF] at h
      cases hstep : utf8Step b rest with
      | none => rw [hstep] at h; simp at h
      | some pr =>
        match pr, hstep with
        | (cp, rest2), hstep =>
          rw [hstep] at h
          simp only [Option.isSome_map'] at h
          exact utf8Step_sound b rest cp rest2 hstep (ih rest2 h)

theorem utf8_complete (bs : List Nat) (h : Utf8Chunks bs) : (utf8Cp bs).isSome = true :=
  utf8_completeF bs h bs.length le_rfl

theorem utf8_sound (bs : List Nat) (h : (utf8Cp bs).isSome = true) : Utf8Chunks bs :=
  utf8_soundF bs.length bs h

theorem utf8_iff (bs : List Nat) : (utf8Cp bs).isSome = true ↔ Utf8Chunks bs :=
  ⟨utf8_sound bs, utf8_complete bs⟩

instance (bs : List Nat) : Decidable (Utf8Chunks bs) :=
  decidable_of_iff ((utf8Cp bs).isSome = true) (utf8_iff bs)

theorem char_toNat_ofNat (n : Nat) (h : Nat.isValidChar n) : (Char.ofNat n).toNat = n := by
  unfold Char.ofNat
  rw [dif_pos h]
  rfl

theorem utf8Step_encode (b : Nat) (rest : List Nat) (cp : Nat) (rest2 : List Nat)
    (h : utf8Step b rest = some (cp, rest2)) :
    utf8EncodeChar cp ++ rest2 = b :: rest ∧ Nat.isValidChar cp := by
  unfold utf8Step at h
  by_cases h1 : b ≤ 0x7F
  · rw [if_pos h1] at h
    cases h
    constructor
    · unfold utf8EncodeChar
      rw [if_pos h1]
      rfl
    · exact Or.inl (by omega)
  · rw [if_neg h1] at h
    by_cases h2 : 0xC2 ≤ b ∧ b ≤ 0xDF
    · rw [if_pos h2] at h
      match rest with
      | [] => cases h
      | c1 :: r2 =>
        by_cases h3 : utf8Tail c1
        · simp only [if_pos h3, Option.some.injEq, Prod.mk.injEq] at h
          obtain ⟨hcp, hr⟩ := h
          subst hcp
          subst hr
          obtain ⟨ha, hb⟩ := h3
          constructor
          · unfold utf8EncodeChar
            rw [if_neg (by omega), if_pos (by omega)]
            have e1 : 0xC0 + ((b - 0xC0) * 0x40 + (c1 - 0x80)) / 0x40 = b := by omega
            have e2 : 0x80 + ((b - 0xC0) * 0x40 + (c1 - 0x80)) % 0x40 = c1 := by omega
            rw [e1, e2]
            rfl
          · simp only [Nat.isValidChar]
            omega
        · simp only [if_neg h3] at h
          cases h
    · rw [if_neg h2] at h
      by_cases h4 : 0xE0 ≤ b ∧ b ≤ 0xEF
      · rw [if_pos h4] at h
        match rest with
        | [] => cases h
        | [c1] => cases h
        | c1 :: c2 :: r2 =>
          by_cases h5 : utf8Second3 b c1 ∧ utf8Tail c2
          · simp only [if_pos h5, Option.some.injEq, Prod.mk.injEq] at h
            obtain ⟨hcp, hr⟩ := h
            subst hcp
            subst hr
            have h5a := h5.1
            unfold utf8Second3 utf8Tail at h5a
            obtain ⟨hc2a, hc2b⟩ := h5.2
            constructor
            · unfold utf8EncodeChar
              rw [if_neg (by omega), if_neg (by omega), if_pos (by omega)]
              have e1 : 0xE0 +
                  ((b - 0xE0) * 0x1000 + (c1 - 0x80) * 0x40 + (c2 - 0x80)) / 0x1000 = b := by
                omega
              have e2 : 0x80 +
                  (((b - 0xE0) * 0x1000 + (c1 - 0x80) * 0x40 + (c2 - 0x80)) / 0x40) % 0x40 =
                  c1 := by
                omega
              have e3 : 0x80 +
                  ((b - 0xE0) * 0x1000 + (c1 - 0x80) * 0x40 + (c2 - 0x80)) % 0x40 = c2 := by
                omega
              rw [e1, e2, e3]
              rfl
            · simp only [Nat.isValidChar]
              omega
          · simp only [if_neg h5] at h
            cases h
      · rw [if_neg h4] at h
        by_cases h6 : 0xF0 ≤ b ∧ b ≤ 0xF4
        · rw [if_pos h6] at h
          match rest with
          | [] => cases h
          | [c1] => cases h
          | [c1, c2] => cases h
          | c1 :: c2 :: c3 :: r2 =>
            by_cases h7 : utf8Second4 b c1 ∧ utf8Tail c2 ∧ utf8Tail c3
            · simp only [if_pos h7, Option.some.injEq, Prod.mk.injEq] at h
              obtain ⟨hcp, hr⟩ := h
              subst hcp
              subst hr
              have h7a := h7.1
              unfold utf8Second4 utf8Tail at h7a
              obtain ⟨hc2a, hc2b⟩ := h7.2.1
              obtain ⟨hc3a, hc3b⟩ := h7.2.2
              constructor
              · unfold utf8EncodeChar
                rw [if_neg (by omega), if_neg (by omega), if_neg (by omega)]
                have e1 : 0xF0 + ((b - 0xF0) * 0x40000 + (c1 - 0x80) * 0x1000 +
                    (c2 - 0x80) * 0x40 + (c3 - 0x80)) / 0x40000 = b := by
                  omega
                have e2 : 0x80 + (((b - 0xF0) * 0x40000 + (c1 - 0x80) * 0x1000 +
                    (c2 - 0x80) * 0x40 + (c3 - 0x80)) / 0x1000) % 0x40 = c1 := by
                  omega
                have e3 : 0x80 + (((b - 0xF0) * 0x40000 + (c1 - 0x80) * 0x1000 +
                    (c2 - 0x80) * 0x40 + (c3 - 0x80)) / 0x40) % 0x40 = c2 := by
                  omega
                have e4 : 0x80 + ((b - 0xF0) * 0x40000 + (c1 - 0x80) * 0x1000 +
                    (c2 - 0x80) * 0x40 + (c3 - 0x80)) % 0x40 = c3 := by
                  omega
                rw [e1, e2, e3, e4]
                rfl
              · simp only [Nat.isValidChar]
                omega
            · simp only [if_neg h7] at h
              cases h
        · rw [if_neg h6] at h
          cases h

theorem utf8CpF_encode : ∀ (fuel : Nat) (bs cps : List Nat),
    utf8CpF fuel bs = some cps →
    utf8Encode cps = bs ∧ ∀ cp ∈ cps, Nat.isValidChar cp := by
  intro fuel
  induction fuel with
  | zero =>
    intro bs cps h
    match bs with
    | [] =>
      cases h
      exact ⟨rfl, by simp⟩
    | b :: rest => cases h
  | succ fuel ih =>
    intro bs cps h
    match bs with
    | [] =>
      cases h
      exact ⟨rfl, by simp⟩
    | b :: rest =>
      simp only [utf8CpF] at h
      cases hstep : utf8Step b rest with
      | none =>
        rw [hstep] at h
        cases h
      | some pr =>
        match pr, hstep with
        | (cp, rest2), hstep =>
          rw [hstep] at h
          dsimp only at h
          cases hrec : utf8CpF fuel rest2 with
          | none =>
            rw [hrec] at h
            cases h
          | some cps2 =>
            rw [hrec] at h
            simp only [Option.map_some', Option.some.injEq] at h
            subst h
            obtain ⟨henc, hval⟩ := ih rest2 cps2 hrec
            obtain ⟨hstep_enc, hstep_val⟩ := utf8Step_encode b rest cp rest2 hstep
            constructor
            · simp only [utf8Encode, henc]
              exact hstep_enc
            · intro cp2 hcp2
              simp only [List.mem_cons] at hcp2
              rcases hcp2 with rfl | hcp2
              · exact hstep_val
              · exact hval cp2 hcp2

/-- Decoding then re-encoding reproduces the input bytes: what pins the
decoded string to its input independently of the decoding function. -/
theorem utf8_roundtrip (bs : List Nat) (h : Utf8Chunks bs) :
    utf8Encode ((utf8DecodeD bs).data.map Char.toNat) = bs := by
  obtain ⟨cps, hcps⟩ := Option.isSome_iff_exists.mp (utf8_complete bs h)
  obtain ⟨henc, hval⟩ := utf8CpF_encode bs.length bs cps hcps
  have hdec : utf8DecodeD bs = String.mk (cps.map Char.ofNat) := by
    simp [utf8DecodeD, utf8Decode, hcps]
  rw [hdec]
  have hdata : (String.mk (cps.map Char.ofNat)).data = cps.map Char.ofNat := rfl
  rw [hdata, List.map_map]
  have hid : cps.map (Char.toNat ∘ Char.ofNat) = cps := by
    conv_rhs => rw [← List.map_id cps]
    exact List.map_congr_left (fun cp hcp => char_toNat_ofNat cp (hval cp hcp))
  rw [hid]
  exact henc

/-- C8: under the plain-text MIME family (the startswith prefix and the
four documented aliases), extraction fails with the text extraction error
exactly on the byte sequences outside the RFC 3629 utf-8 grammar; on the
byte sequences inside it, it returns the decoded string, whose code points
re-encode under the RFC 3629 layout to exactly the input bytes. -/
theorem c8_plain_text_utf8 (c : Collabs) (bs : List Nat) (mime_type : String)
    (hmt : pyStartsWith mime_type "text/plain" = true ∨
      mime_type ∈ ["text/html", "text/htm", "text/markdown", "text/xml"]) :
    (¬ Utf8Chunks bs →
      _extract_text c bs mime_type = .error (.textExtraction "Failed to decode plain text file")) ∧
    (Utf8Chunks bs → _extract_text c bs mime_type = .ok (utf8DecodeD bs) ∧
      utf8Encode ((utf8DecodeD bs).data.map Char.toNat) = bs) := by
  have hroute : _extract_text c bs mime_type = _extract_text_from_plain_text bs := by
    unfold _extract_text
    rw [if_pos hmt]
  constructor
  · intro hbad
    rw [hroute]
    have hcp : utf8Cp bs = none := by
      cases hc : utf8Cp bs with
      | none => rfl
      | some v => exact absurd ((utf8_iff bs).mp (by simp [hc])) hbad
    simp [_extract_text_from_plain_text, utf8Decode, hcp]
  · intro hgood
    refine ⟨?_, utf8_roundtrip bs hgood⟩
    rw [hroute]
    obtain ⟨v, hv⟩ := Option.isSome_iff_exists.mp ((utf8_iff bs).mpr hgood)
    simp [_extract_text_from_plain_text, utf8Decode, utf8DecodeD, hv]

/-- C8 witness: the two bytes of the word hi decode to it and re-encode
to themselves, and the lone byte 0xFF fails the plain-text extraction. -/
theorem c8_witness :
    utf8DecodeD [0x68, 0x69] = "hi" ∧
    (_extract_text defaultCollabs [0x68, 0x69] "text/plain" = .ok (utf8DecodeD [0x68, 0x69]) ∧
      utf8Encode ((utf8DecodeD [0x68, 0x69]).data.map Char.toNat) = [0x68, 0x69]) ∧
    _extract_text defaultCollabs [0xFF] "text/plain" =
      .error (.textExtraction "Failed to decode plain text file") :=
  ⟨by decide,
   (c8_plain_text_utf8 defaultCollabs [0x68, 0x69] "text/plain" (Or.inl (by decide))).2 (by decide),
   (c8_plain_text_utf8 defaultCollabs [0xFF] "text/plain" (Or.inl (by decide))).1 (by decide)⟩

/-! ## Lemmas about batch extraction -/

theorem extract_list_files_error (c : Collabs) (fs : List File) (e : DocErr)
    (h : firstExtractionError c fs = some e) :
    _extract_list c (fs.map PyValue.file) = .error (.doc e) := by
  induction fs with
  | nil => simp [firstExtractionError] at h
  | cons f fs ih =>
    simp only [firstExtractionError] at h
    cases hf : (_extract_text_from_file c f).1 with
    | error e0 =>
      rw [hf] at h
      simp only [Option.some.injEq] at h
      subst h
      simp only [List.map_cons, _extract_list, _extract_item, hf]
    | ok t =>
      rw [hf] at h
      simp only [List.map_cons, _extract_list, _extract_item, hf, ih h]

theorem extract_list_files_ok (c : Collabs) (fs : List File)
    (h : firstExtractionError c fs = Option.none) :
    ∃ ts, _extract_list c (fs.map PyValue.file) = .ok ts ∧
      List.Forall₂ (fun f t => (_extract_text_from_file c f).1 = .ok t) fs ts := by
  induction fs with
  | nil => exact ⟨[], rfl, .nil⟩
  | cons f fs ih =>
    simp only [firstExtractionError] at h
    cases hf : (_extract_text_from_file c f).1 with
    | error e0 =>
      rw [hf] at h
      simp at h
    | ok t =>
      rw [hf] at h
      obtain ⟨ts, hts, hall⟩ := ih h
      refine ⟨t :: ts, ?_, .cons hf hall⟩
      simp only [List.map_cons, _extract_list, _extract_item, hf, hts]

theorem firstErr_none_of_all_ok (c : Collabs) (fs : List File)
    (h : ∀ f ∈ fs, ∃ t, (_extract_text_from_file c f).1 = .ok t) :
    firstExtractionError c fs = Option.none := by
  induction fs with
  | nil => rfl
  | cons f fs ih =>
    obtain ⟨t, ht⟩ := h f (by simp)
    simp only [firstExtractionError, ht]
    exact ih (fun g hg => h g (by simp [hg]))

/-- C2: a list input whose elements contain a failing extraction produces
a returned failed result (no taxonomy exception escapes), whose error
message is the string of the first failing element's error and whose
outputs are not populated. -/
theorem c2_first_failure_aborts (c : Collabs) (sel : String) (fs : List File) (e : DocErr)
    (h : firstExtractionError c fs = some e) :
    _run c sel (some (.arrayFileSegment fs)) =
      .result { status := .failed, error := some e.str, inputs := some sel,
                process_data := some (fs.map PyValue.file), outputs := Option.none } := by
  simp only [_run]
  rw [if_neg (by simp [Variable.isFileLikeSegment])]
  simp only [Variable.value, extract_list_files_error c fs e h]

/-- C6: a list input all of whose extractions succeed produces a succeeded
result whose texts output lists, in input order, exactly the extraction
result of each element (so it has the input's length). -/
theorem c6_all_success_ordered (c : Collabs) (sel : String) (fs : List File)
    (h : ∀ f ∈ fs, ∃ t, (_extract_text_from_file c f).1 = .ok t) :
    ∃ ts, _run c sel (some (.arrayFileSegment fs)) =
        .result { status := .succeeded, error := Option.none, inputs := some sel,
                  process_data := some (fs.map PyValue.file), outputs := some (.strList ts) } ∧
      ts.length = fs.length ∧
      List.Forall₂ (fun f t => (_extract_text_from_file c f).1 = .ok t) fs ts := by
  obtain ⟨ts, hts, hall⟩ := extract_list_files_ok c fs (firstErr_none_of_all_ok c fs h)
  refine ⟨ts, ?_, hall.length_eq.symm, hall⟩
  simp only [_run]
  rw [if_neg (by simp [Variable.isFileLikeSegment])]
  simp only [Variable.value, hts]

/-- C2 witness: a batch of three files whose second has an unsupported
type fails with that element's message and no outputs. -/
theorem c2_witness :
    firstExtractionError okCollabs [remoteTxtFile, remoteZipFile, localTxtFile] =
      some (.unsupportedFileType "Unsupported MIME type: application/zip") ∧
    _run okCollabs "sel" (some (.arrayFileSegment [remoteTxtFile, remoteZipFile, localTxtFile])) =
      .result { status := .failed,
                error := some (DocErr.str (.unsupportedFileType "Unsupported MIME type: application/zip")),
                inputs := some "sel",
                process_data := some ([remoteTxtFile, remoteZipFile, localTxtFile].map PyValue.file),
                outputs := Option.none } :=
  ⟨by rfl, c2_first_failure_aborts okCollabs "sel" [remoteTxtFile, remoteZipFile, localTxtFile]
    (.unsupportedFileType "Unsupported MIME type: application/zip") (by rfl)⟩

/-- C6 witness: a batch of two files, one remote and one local, succeeds
with both texts in order. -/
theorem c6_witness :
    ∃ ts, _run okCollabs "sel" (some (.arrayFileSegment [remoteTxtFile, localTxtFile])) =
        .result { status := .succeeded, error := Option.none, inputs := some "sel",
                  process_data := some ([remoteTxtFile, localTxtFile].map PyValue.file),
                  outputs := some (.strList ts) } ∧
      ts.length = [remoteTxtFile, localTxtFile].length ∧
      List.Forall₂ (fun f t => (_extract_text_from_file okCollabs f).1 = .ok t)
        [remoteTxtFile, localTxtFile] ts :=
  c6_all_success_ordered okCollabs "sel" [remoteTxtFile, localTxtFile]
    (by
      intro f hf
      simp only [List.mem_cons, List.not_mem_nil, or_false] at hf
      rcases hf with rfl | rfl
      · exact ⟨"h", by rfl⟩
      · exact ⟨"i", by rfl⟩)

/-! ## Claims about input shape validation -/

/-- C9: a variable whose value is neither a file nor a list of files
yields a returned failed result with no outputs, whose error is one of the
two validation messages (the truthy shape check's message, or the
unsupported variable type message raised as the taxonomy's base class),
not an error of the three specific taxonomy kinds. -/
theorem c9_invalid_shape_fails (c : Collabs) (sel : String) (var : Variable)
    (h1 : var.value.isFileValue = false) (h2 : var.value.isFileListValue = false) :
    ∃ r, _run c sel (some var) = .result r ∧ r.status = .failed ∧
      r.outputs = Option.none ∧
      (r.error = some ("Variable " ++ sel ++ " is not an ArrayFileSegment") ∨
       r.error = some ("Unsupported variable type: " ++ var.value.pyTypeStr)) := by
  cases var with
  | fileSegment f => simp [Variable.value, PyValue.isFileValue] at h1
  | arrayFileSegment fs =>
    exfalso
    have hall : (fs.map PyValue.file).all PyValue.isFileValue = true := by
      rw [List.all_eq_true]
      intro x hx
      obtain ⟨f, _, rfl⟩ := List.mem_map.mp hx
      rfl
    simp [Variable.value, PyValue.isFileListValue, hall] at h2
  | other v =>
    cases v with
    | file f => simp [Variable.value, PyValue.isFileValue] at h1
    | list l =>
      have hne : ¬ l.isEmpty = true := by
        intro hl
        rw [List.isEmpty_iff] at hl
        subst hl
        simp [Variable.value, PyValue.isFileListValue] at h2
      refine ⟨{ status := .failed,
                error := some ("Variable " ++ sel ++ " is not an ArrayFileSegment"),
                inputs := Option.none, process_data := Option.none, outputs := Option.none },
        ?_, rfl, rfl, Or.inl rfl⟩
      simp only [_run]
      rw [if_pos ⟨by simp [Variable.value, PyValue.truthy, hne], by simp [Variable.isFileLikeSegment]⟩]
    | str s =>
      by_cases hs : s.isEmpty
      · refine ⟨{ status := .failed,
                  error := some ("Unsupported variable type: " ++ (PyValue.str s).pyTypeStr),
                  inputs := some sel, process_data := some [PyValue.str s],
                  outputs := Option.none }, ?_, rfl, rfl, Or.inr rfl⟩
        simp only [_run]
        rw [if_neg (by simp [Variable.value, PyValue.truthy, hs])]
        rfl
      · refine ⟨{ status := .failed,
                  error := some ("Variable " ++ sel ++ " is not an ArrayFileSegment"),
                  inputs := Option.none, process_data := Option.none, outputs := Option.none },
          ?_, rfl, rfl, Or.inl rfl⟩
        simp only [_run]
        rw [if_pos ⟨by simp [Variable.value, PyValue.truthy, hs], by simp [Variable.isFileLikeSegment]⟩]
    | none =>
      refine ⟨{ status := .failed,
                error := some ("Unsupported variable type: " ++ PyValue.none.pyTypeStr),
                inputs := some sel, process_data := some [PyValue.none],
                outputs := Option.none }, ?_, rfl, rfl, Or.inr rfl⟩
      simp only [_run]
      rw [if_neg (by simp [Variable.value, PyValue.truthy])]
      rfl
    | int n =>
      by_cases hn : n = 0
      · refine ⟨{ status := .failed,
                  error := some ("Unsupported variable type: " ++ (PyValue.int n).pyTypeStr),
                  inputs := some sel, process_data := some [PyValue.int n],
                  outputs := Option.none }, ?_, rfl, rfl, Or.inr rfl⟩
        simp only [_run]
        rw [if_neg (by simp [Variable.value, PyValue.truthy, hn])]
        rfl
      · refine ⟨{ status := .failed,
                  error := some ("Variable " ++ sel ++ " is not an ArrayFileSegment"),
                  inputs := Option.none, process_data := Option.none, outputs := Option.none },
          ?_, rfl, rfl, Or.inl rfl⟩
        simp only [_run]
        rw [if_pos ⟨by simp [Variable.value, PyValue.truthy, hn], by simp [Variable.isFileLikeSegment]⟩]

/-- C9 witness: a non-empty string variable fails validation. -/
theorem c9_witness :
    ∃ r, _run defaultCollabs "sel" (some (.other (.str "hello"))) = .result r ∧
      r.status = .failed ∧ r.outputs = Option.none ∧
      (r.error = some ("Variable " ++ "sel" ++ " is not an ArrayFileSegment") ∨
       r.error = some ("Unsupported variable type: " ++ (Variable.other (.str "hello")).value.pyTypeStr)) :=
  c9_invalid_shape_fails defaultCollabs "sel" (.other (.str "hello")) rfl rfl

/-! ## Taxonomy error messages never collide with the validation message

Every message the extraction pipeline can raise starts with a fixed text
(Unsupported, Unable, Error, Failed), never with the capital V opening the
shape validation message. -/

theorem head_append (p q : String) (c0 : Char) (t : List Char) (hp : p.data = c0 :: t) :
    (p ++ q).data.head? = some c0 := by
  rw [String.data_append, hp, List.cons_append]
  rfl

theorem download_err_notV (c : Collabs) (file : File) (e : DocErr) (n s : Nat)
    (h : _download_file_content c file = (.error e, n, s)) :
    (DocErr.str e).data.head? ≠ some 'V' := by
  unfold _download_file_content at h
  split at h
  · split at h
    · cases h
      simp only [DocErr.str]
      rw [head_append _ _ 'E' _ rfl]
      decide
    · split at h
      · cases h
        simp only [DocErr.str]
        rw [head_append _ _ 'E' _ rfl]
        decide
      · split at h
        · cases h
        · cases h
          simp only [DocErr.str]
          rw [head_append _ _ 'E' _ rfl]
          decide
  · split at h
    · cases h
      simp only [DocErr.str]
      rw [head_append _ _ 'E' _ rfl]
      decide
    · split at h
      · cases h
        simp only [DocErr.str]
        rw [head_append _ _ 'E' _ rfl]
        decide
      · cases h
  · cases h
    simp only [DocErr.str]
    rw [head_append _ _ 'E' _ rfl]
    decide

theorem extract_text_err_notV (c : Collabs) (fc : List Nat) (mt : String) (e : DocErr)
    (h : _extract_text c fc mt = .error e) :
    (DocErr.str e).data.head? ≠ some 'V' := by
  unfold _extract_text at h
  split at h
  · unfold _extract_text_from_plain_text at h
    split at h
    · cases h
    · cases h
      simp only [DocErr.str]
      decide
  · split at h
    · unfold _extract_text_from_pdf at h
      split at h
      · cases h
        simp only [DocErr.str]
        rw [head_append _ _ 'F' _ rfl]
        decide
      · cases h
    · split at h
      · unfold _extract_text_from_doc at h
        split at h
        · cases h
          simp only [DocErr.str]
          rw [head_append _ _ 'F' _ rfl]
          decide
        · cases h
      · split at h
        · unfold _extract_text_from_csv at h
          split at h
          · cases h
            simp only [DocErr.str]
            rw [head_append _ _ 'F' _ rfl]
            decide
          · split at h
            · cases h
              simp only [DocErr.str]
              rw [head_append _ _ 'F' _ rfl]
              decide
            · cases h
        · split at h
          · unfold _extract_text_from_excel at h
            split at h
            · cases h
              simp only [DocErr.str]
              rw [head_append _ _ 'F' _ rfl]
              decide
            · split at h
              · cases h
                simp only [DocErr.str]
                rw [head_append _ _ 'F' _ rfl]
                decide
              · cases h
          · split at h
            · unfold _extract_text_from_ppt at h
              split at h
              · cases h
                simp only [DocErr.str]
                rw [head_append _ _ 'F' _ rfl]
                decide
              · cases h
            · split at h
              · unfold _extract_text_from_pptx at h
                split at h
                · cases h
                  simp only [DocErr.str]
                  rw [head_append _ _ 'F' _ rfl]
                  decide
                · cases h
              · split at h
                · unfold _extract_text_from_epub at h
                  split at h
                  · cases h
                    simp only [DocErr.str]
                    rw [head_append _ _ 'F' _ rfl]
                    decide
                  · cases h
                · split at h
                  · unfold _extract_text_from_eml at h
                    split at h
                    · cases h
                      simp only [DocErr.str]
                      rw [head_append _ _ 'F' _ rfl]
                      decide
                    · cases h
                  · split at h
                    · unfold _extract_text_from_msg at h
                      split at h
                      · cases h
                        simp only [DocErr.str]
                        rw [head_append _ _ 'F' _ rfl]
                        decide
                      · cases h
                    · cases h
                      simp only [DocErr.str]
                      rw [head_append _ _ 'U' _ rfl]
                      decide

theorem extract_file_err_notV (c : Collabs) (f : File) (e : DocErr)
    (h : (_extract_text_from_file c f).1 = .error e) :
    (DocErr.str e).data.head? ≠ some 'V' := by
  unfold _extract_text_from_file at h
  split at h
  · dsimp only at h
    cases h
    simp only [DocErr.str]
    decide
  · split at h
    next e0 n s heq =>
      dsimp only at h
      cases h
      exact download_err_notV c f _ n s heq
    next content n s heq =>
      dsimp only at h
      exact extract_text_err_notV c content _ e h

theorem extract_list_err_notV (c : Collabs) (elems : List PyValue) (e : DocErr)
    (h : _extract_list c elems = .error (.doc e)) :
    (DocErr.str e).data.head? ≠ some 'V' := by
  induction elems with
  | nil => cases h
  | cons v vs ih =>
    simp only [_extract_list] at h
    split at h
    next e1 heq =>
      cases h
      unfold _extract_item at heq
      split at heq
      next f =>
        split at heq
        next e2 hf =>
          cases heq
          exact extract_file_err_notV c f _ hf
        next t hf => cases heq
      next hnot => cases heq
    next t heq =>
      split at h
      next e1 heq2 =>
        cases h
        exact ih heq2
      next ts heq2 => cases h

/-- C10: the shape validation check applies only to truthy values: for a
variable whose value is empty or null, whatever its segment kind, the run
never returns the shape validation failure message, and in particular the
empty array file segment runs to a succeeded result whose texts output is
the empty list. -/
theorem c10_falsy_skips_validation (c : Collabs) (sel : String) :
    (∀ var : Variable, var.value.truthy = false →
      ∀ r, _run c sel (some var) = .result r →
        r.error ≠ some ("Variable " ++ sel ++ " is not an ArrayFileSegment")) ∧
    _run c sel (some (.arrayFileSegment [])) =
      .result { status := .succeeded, error := Option.none, inputs := some sel,
                process_data := some [], outputs := some (.strList []) } := by
  have hVmsg : ("Variable " ++ sel ++ " is not an ArrayFileSegment").data.head? = some 'V' :=
    head_append _ _ 'V' _ (by rw [String.data_append]; rfl)
  constructor
  · intro var htr r hrun
    simp only [_run] at hrun
    rw [if_neg (by simp [htr])] at hrun
    rcases hv : var.value with f | elems | s2 | - | n
    · rw [hv] at htr
      simp [PyValue.truthy] at htr
    · rw [hv] at hrun
      dsimp only at hrun
      split at hrun
      next ts heq =>
        cases hrun
        simp
      next e1 heq =>
        cases hrun
        intro hc
        simp only [Option.some.injEq] at hc
        exact extract_list_err_notV c elems e1 heq (by rw [hc]; exact hVmsg)
      next heq => cases hrun
    · rw [hv] at hrun
      dsimp only at hrun
      cases hrun
      intro hc
      simp only [Option.some.injEq] at hc
      have hU := head_append "Unsupported variable type: " (PyValue.str s2).pyTypeStr 'U' _ rfl
      rw [hc, hVmsg] at hU
      exact absurd hU (by decide)
    · rw [hv] at hrun
      dsimp only at hrun
      cases hrun
      intro hc
      simp only [Option.some.injEq] at hc
      have hU := head_append "Unsupported variable type: " PyValue.none.pyTypeStr 'U' _ rfl
      rw [hc, hVmsg] at hU
      exact absurd hU (by decide)
    · rw [hv] at hrun
      dsimp only at hrun
      cases hrun
      intro hc
      simp only [Option.some.injEq] at hc
      have hU := head_append "Unsupported variable type: " (PyValue.int n).pyTypeStr 'U' _ rfl
      rw [hc, hVmsg] at hU
      exact absurd hU (by decide)
  · rfl

/-- C10 witness: the empty string variable runs to the unsupported
variable type failure, not the shape validation failure, and the empty
array file segment runs to the succeeded empty texts result. -/
theorem c10_witness :
    ({ status := .failed,
       error := some ("Unsupported variable type: " ++ (PyValue.str "").pyTypeStr),
       inputs := some "sel", process_data := some [PyValue.str ""],
       outputs := Option.none } : NodeRunResult).error ≠
        some ("Variable " ++ "sel" ++ " is not an ArrayFileSegment") ∧
    _run defaultCollabs "sel" (some (.arrayFileSegment [])) =
      .result { status := .succeeded, error := Option.none, inputs := some "sel",
                process_data := some [], outputs := some (.strList []) } :=
  ⟨(c10_falsy_skips_validation defaultCollabs "sel").1 (.other (.str "")) (by decide) _ (by rfl),
   (c10_falsy_skips_validation defaultCollabs "sel").2⟩

end DocumentExtractor

